import Mathlib

/-!
Verification development for the MDP environment engine of the
reinforcement-learning repository (utils/mdp.py).

The definitions below are a shallow embedding of the Python source.
Tensors built by numpy fill-then-patch assignment are embedded as total
functions on indices, reading the sequence of writes with the usual
last-write-wins semantics (all transition writes store the value 1, so
the order of non-conflicting writes does not matter).  Stochastic
sampling is embedded by passing the drawn index explicitly; the
categorical sampler of numpy raises when the probability row does not
sum to 1, which is modelled by an Except value.  Machine reals are
modelled as exact rationals: every probability and reward in the source
is an exact decimal literal.
-/

/-- Sum of a probability row over next states 0, ..., n-1
(the axis-2 sum of a tensor row). -/
def listRowSum (n : Nat) (p : Nat → Rat) : Rat :=
  ((List.range n).map p).sum

/-- Embedding of numpy random choice over n outcomes with probability
vector p: it raises a ValueError when the probabilities do not sum to 1,
and otherwise returns the drawn index d (the draw is an explicit input).
The source rows are exact, so the floating tolerance check is exact
equality here. -/
def npChoice (n : Nat) (p : Nat → Rat) (d : Nat) : Except String Nat :=
  if listRowSum n p = 1 then Except.ok d else Except.error "probabilities do not sum to 1"

/-- A draw d is a possible output of the categorical sampler over
(n, p) when it is in range and has nonzero probability. -/
def possibleDraw (n : Nat) (p : Nat → Rat) (d : Nat) : Prop :=
  d < n ∧ p d ≠ 0

instance (n : Nat) (p : Nat → Rat) (d : Nat) : Decidable (possibleDraw n p d) := by
  unfold possibleDraw; infer_instance

/-- True exactly on Except.error values. -/
def isErr {α : Type} : Except String α → Bool
  | Except.error _ => true
  | Except.ok _ => false

/-- Return shape of a reset call: the richer grid variants return a
pair of the state and an info dictionary (whose only entry is the key
prob with value 1, modelled by the rational payload), while the
cliff-walking and toy variants return the bare state. -/
inductive ResetRet where
  | pair (state : Nat) (probInfo : Rat)
  | bare (state : Nat)
deriving DecidableEq

/-- Whether a reset return value has the pair shape (state, info)
required by the abstract protocol. -/
def isProtoPair : ResetRet → Bool
  | ResetRet.pair _ _ => true
  | ResetRet.bare _ => false

/-!  Deterministic rectangular grid world
(class GeneralDeterministicGridWorldMDP, mdp.py lines 120-180).
num_states = width * height - 1, terminal cell at index 0. -/

/-- Destination cell written by the loop body of _build_trans_mat for a
non-terminal state s and action a (LEFT = 0, UP = 1, RIGHT = 2,
DOWN = 3), transcribed from mdp.py lines 146-178. -/
def gridDest (w ns s a : Nat) : Nat :=
  match a with
  | 0 => if s = 1 then 0 else if s % w = 0 then s else s - 1
  | 1 => if s = w then 0 else if s < w then s else s - w
  | 2 => if s + 1 = ns then 0 else if (s + 1) % w = 0 then s else s + 1
  | 3 => if s + w = ns then 0 else if ns - s < w then s else s + w
  | _ => s

/-- Transition tensor of the deterministic grid
(GeneralDeterministicGridWorldMDP._build_trans_mat): the final state 0
self-loops, and each non-terminal state s has, for each action, a single
probability-1 entry at the destination written by the loop body. -/
def gridT (w ns s a s1 : Nat) : Rat :=
  if s = 0 then (if s1 = 0 then 1 else 0)
  else if 1 ≤ s ∧ s < ns ∧ a < 4 then (if s1 = gridDest w ns s a then 1 else 0)
  else 0

/-- Reward tensor of the grid variants: fill with -1, then zero every
row originating from the final state 0. -/
def gridR (s _a _s1 : Nat) : Rat :=
  if s = 0 then 0 else -1

/-- Constructor of GeneralGridWorldMDP: num_states = width * height - 1
must be positive (assert at mdp.py line 83); on success it returns the
state count.  Building the tensors cannot fail for any accepted
geometry. -/
def gridInit (w h : Nat) : Except String Nat :=
  if 0 < w * h - 1 then Except.ok (w * h - 1)
  else Except.error "width * height - 1 must be greater than 0!"

/-- Reset of the grid variants (GridWorldMDP.reset and
GeneralGridWorldMDP.reset): numpy choice over range(1, num_states)
raises on an empty range (num_states at most 1) and otherwise yields a
drawn state d with 1 <= d < num_states; the call returns the pair of
the state and the info dictionary with prob 1, and the cursor is set to
the drawn state. -/
def gReset (ns d : Nat) : Except String (ResetRet × Nat) :=
  if ns ≤ 1 then Except.error "a must be non-empty"
  else Except.ok (ResetRet.pair d 1, d)

/-- Step of GeneralGridWorldMDP (mdp.py lines 100-108): validate the
action, then that the episode has not ended, then sample the next state
from the transition row of the current state, look up the reward with
the previous state, and report done when the new state is the final
state 0.  The second component is the cursor after the call; a raised
assertion or sampling error leaves it unchanged. -/
def gStep (w ns st a d : Nat) : Except String (Nat × Rat × Bool × Bool) × Nat :=
  if a < 4 then
    if st = 0 then (Except.error "Episode has ended!", st)
    else
      match npChoice ns (gridT w ns st a) d with
      | Except.error e => (Except.error e, st)
      | Except.ok s1 => (Except.ok (s1, gridR st a s1, s1 == 0, false), s1)
  else (Except.error "Invalid Action", st)

/-- Destination cell of the deterministic grid according to the four
branch rules as the specification words them (section 4.2 (a)): LEFT
goes to the terminal if state = 1, stays in the leftmost column, else
moves to state - 1; and symmetrically for UP, RIGHT and DOWN with the
stated boundary and one-step-from-terminal conditions.  This definition
follows the words of the specification and is compared against the
definition transcribed from the source. -/
def specRuleDest (width stateCount s a : Nat) : Nat :=
  if a = 0 then (if s = 1 then 0 else if s % width = 0 then s else s - 1)
  else if a = 1 then (if s = width then 0 else if s < width then s else s - width)
  else if a = 2 then
    (if s + 1 = stateCount then 0 else if (s + 1) % width = 0 then s else s + 1)
  else
    (if s + width = stateCount then 0
     else if stateCount - s < width then s else s + width)

/-!  Cliff-walking grid world (class CliffWalkingMDP, mdp.py lines 197-297). -/

/-- Geometry of a cliff-walking environment as stored by the
constructor. -/
structure CliffCfg where
  width : Nat
  height : Nat
  cliff : List Nat
  start : Nat
  goal : Nat
deriving DecidableEq

/-- num_states = width * height. -/
def CliffCfg.ns (cfg : CliffCfg) : Nat := cfg.width * cfg.height

/-- terminal_states = [goal_state] + cliff_states (mdp.py line 216). -/
def CliffCfg.terminalStates (cfg : CliffCfg) : List Nat :=
  cfg.goal :: cfg.cliff

/-- Whether the fill loop of CliffWalkingMDP._build_trans_mat reaches
state s: the loop runs s = 0, 1, ... and executes a break (not a
continue) at the first state that is in terminal_states, so the body
runs for s exactly when s is in range and no state up to s is
terminal. -/
def cliffReached (cfg : CliffCfg) (s : Nat) : Bool :=
  decide (s < cfg.ns) &&
    (List.range (s + 1)).all (fun j => decide (j ∉ cfg.terminalStates))

/-- The per-action writes of the loop body of
CliffWalkingMDP._build_trans_mat for a reached state s (mdp.py lines
269-295).  Note that the branch for a cliff state in the DOWN block
writes the RIGHT action (line 291), so the RIGHT row admits that extra
write and the DOWN row is only written for states not in the cliff
set. -/
def cliffRow (cfg : CliffCfg) (s a s1 : Nat) : Rat :=
  if a = 0 then
    (if s1 = (if s % cfg.width = 0 then s else s - 1) then 1 else 0)
  else if a = 1 then
    (if s1 = (if s < cfg.width then s else s - cfg.width) then 1 else 0)
  else if a = 2 then
    (if s1 = (if s = cfg.start then cfg.start
              else if (s + 1) % cfg.width = 0 then s else s + 1)
        ∨ (s ∈ cfg.cliff ∧ s1 = cfg.start) then 1 else 0)
  else if a = 3 then
    (if s ∉ cfg.cliff ∧
        s1 = (if cfg.ns - s ≤ cfg.width then s else s + cfg.width) then 1 else 0)
  else 0

/-- Transition tensor of CliffWalkingMDP._build_trans_mat: the goal row
self-loops, every cliff row sends every action to the start state, and
the loop fills the rows of the states it reaches before breaking at the
first terminal index.  Rows of non-terminal states at or beyond the
first terminal index are left all zero. -/
def cliffT (cfg : CliffCfg) (s a s1 : Nat) : Rat :=
  if cliffReached cfg s then cliffRow cfg s a s1
  else if (s ∈ cfg.cliff ∧ s1 = cfg.start) ∨ (s = cfg.goal ∧ s1 = cfg.goal) then 1
  else 0

/-- Reward tensor of CliffWalkingMDP._build_r_mat: fill with -1, then
set every row originating from a cliff state to -100, then set every
row originating from the goal state to 0 (later writes win). -/
def cliffR (cfg : CliffCfg) (s _a _s1 : Nat) : Rat :=
  if s = cfg.goal then 0
  else if s ∈ cfg.cliff then -100
  else -1

/-- Constructor of CliffWalkingMDP (mdp.py lines 199-218): the only
assertion is that num_states = width * height is positive; building the
tensors then raises an IndexError when the goal, start, or a cliff
index is out of range (a numpy assignment with an out-of-range index),
and no other validation is performed. -/
def cliffInit (w h : Nat) (cl : List Nat) (s g : Nat) : Except String CliffCfg :=
  if 0 < w * h then
    if g < w * h ∧ s < w * h ∧ ∀ c ∈ cl, c < w * h then
      Except.ok ⟨w, h, cl, s, g⟩
    else Except.error "IndexError"
  else Except.error "width * height must be greater than 0!"

/-- Reset of CliffWalkingMDP (mdp.py lines 220-222): the cursor is set
to the start state and the bare state is returned, with no info
dictionary. -/
def cliffReset (cfg : CliffCfg) : ResetRet × Nat :=
  (ResetRet.bare cfg.start, cfg.start)

/-- Step of CliffWalkingMDP (mdp.py lines 224-236): validate the
action, then that the current state is not the goal; then sample inside
a bare try/except that merely prints the row on failure, so a sampling
failure leaves the cursor unchanged and the call still returns a normal
triple.  The reward is looked up with the previous state and the new
cursor, and done holds when the new cursor is the goal. -/
def cliffStep (cfg : CliffCfg) (st a d : Nat) : Except String (Nat × Rat × Bool) × Nat :=
  if a < 4 then
    if st = cfg.goal then (Except.error "Episode has ended!", st)
    else
      let st1 : Nat :=
        match npChoice cfg.ns (cliffT cfg st a) d with
        | Except.ok s1 => s1
        | Except.error _ => st
      (Except.ok (st1, cliffR cfg st a st1, st1 == cfg.goal), st1)
  else (Except.error "Invalid Action", st)

/-!  Two-state toy model (class OneStateRandomMDP, mdp.py lines 300-348). -/

/-- Transition tensor of OneStateRandomMDP._build_trans_mat,
transcribed from the literal assignments at mdp.py lines 342-346. -/
def toyT (s a s1 : Nat) : Rat :=
  if s = 0 ∧ a = 0 ∧ s1 = 0 then 9 / 10
  else if s = 0 ∧ a = 0 ∧ s1 = 1 then 1 / 10
  else if s = 0 ∧ a = 1 ∧ s1 = 0 then 0
  else if s = 0 ∧ a = 1 ∧ s1 = 1 then 1
  else if s = 1 ∧ s1 = 1 then 1
  else 0

/-- Reward tensor of OneStateRandomMDP._build_r_mat: the single nonzero
entry is at (0, 0, 1). -/
def toyR (s a s1 : Nat) : Rat :=
  if s = 0 ∧ a = 0 ∧ s1 = 1 then 1 else 0

/-- The fixed literal table of the two-state toy model as the
specification words it (section 4.2 (c)): from state 0, action 0 goes
to state 0 with probability 9 / 10 and to state 1 with probability
1 / 10; action 1 goes to state 1 with probability 1; state 1 is
absorbing under both actions.  This definition follows the words of
the specification, for comparison with the source transcription. -/
def specToyT (s a s1 : Nat) : Rat :=
  if s = 0 then
    (if a = 0 then (if s1 = 0 then 9 / 10 else 1 / 10)
     else (if s1 = 1 then 1 else 0))
  else (if s1 = 1 then 1 else 0)

/-- Reset of OneStateRandomMDP (mdp.py lines 317-319): the cursor is
set to state 0 and the bare state is returned. -/
def toyReset : ResetRet × Nat :=
  (ResetRet.bare 0, 0)

/-- Step of OneStateRandomMDP (mdp.py lines 321-330): validate the
action against num_actions = 2, then that the current state is not the
final state 1, then sample, look up the reward and report done when the
new state is 1.  A sampling failure propagates. -/
def toyStep (st a d : Nat) : Except String (Nat × Rat × Bool) × Nat :=
  if a < 2 then
    if st = 1 then (Except.error "Episode has ended!", st)
    else
      match npChoice 2 (toyT st a) d with
      | Except.error e => (Except.error e, st)
      | Except.ok s1 => (Except.ok (s1, toyR st a s1, s1 == 1), s1)
  else (Except.error "Invalid action", st)

/-!  The abstract base class GridWorldMDP (mdp.py lines 16-55). -/

/-- Modelled from the spec: the EnvironmentSpec value object lives in
the env module, which is not part of the core source; section 4.1 of
the specification states it is an immutable triple with no operations
and no error conditions, so its construction always succeeds. -/
structure EnvSpecM where
  numStates : Nat
  numActions : Nat
  gamma : Rat
deriving DecidableEq

/-- Fields of a fully constructed GridWorldMDP base instance. -/
structure GridWorldBase where
  spec : EnvSpecM
  numStates : Nat
  finalState : Nat
  transMat : Nat → Nat → Nat → Rat
  rMat : Nat → Nat → Nat → Rat

/-- GridWorldMDP._build_trans_mat (mdp.py lines 43-44) unconditionally
raises NotImplementedError with the message _build_trans_mat. -/
def baseBuildTransMat : Except String (Nat → Nat → Nat → Rat) :=
  Except.error "_build_trans_mat"

/-- Constructor of the base class GridWorldMDP (mdp.py lines 18-27): it
creates the spec, stores the scalar fields, and then calls the
unimplemented _build_trans_mat, so it raises before a complete instance
ever exists. -/
def gridWorldMDPInit (numStates : Nat) : Except String GridWorldBase :=
  let sp : EnvSpecM := ⟨numStates, 4, 1⟩
  match baseBuildTransMat with
  | Except.error e => Except.error e
  | Except.ok td => Except.ok ⟨sp, numStates, 0, td, fun s _ _ => if s = 0 then 0 else -1⟩

/-!  Concrete configurations used by the concrete theorems. -/

/-- A standard cliff-walking geometry: a 4 x 3 grid with the start at
the bottom-left cell 8, the cliff at cells 9 and 10, and the goal at
the bottom-right cell 11. -/
def cfgStd : CliffCfg := ⟨4, 3, [9, 10], 8, 11⟩

/-- A constructible cliff-walking geometry whose cliff cells 5 and 6
sit in the middle row of a 4 x 3 grid, below the first non-terminal
states: the fill loop breaks at state 5 and leaves the rows of the
non-terminal states 7, 8, 9 and 10 all zero. -/
def bugCfg : CliffCfg := ⟨4, 3, [5, 6], 0, 11⟩

/-!  Supporting lemmas. -/

/-- The axis sum of a point-mass row is 1 exactly when the mass sits in
range. -/
lemma listRowSum_indicator (n t : Nat) :
    listRowSum n (fun s1 => if s1 = t then (1 : Rat) else 0) =
      if t < n then 1 else 0 := by
  induction n with
  | zero => simp [listRowSum]
  | succ m ih =>
    unfold listRowSum at ih ⊢
    rw [List.range_succ, List.map_append, List.sum_append, ih]
    by_cases h1 : t < m
    · have h2 : t < m + 1 := by omega
      have h3 : ¬ m = t := by omega
      simp [h1, h2, h3]
    · by_cases h4 : m = t
      · have h5 : t < m + 1 := by omega
        simp [h1, h4, h5]
      · have h5 : ¬ t < m + 1 := by omega
        simp [h1, h4, h5]

/-- The fill loop of the cliff builder never reaches a terminal
state. -/
lemma cliffReached_terminal (cfg : CliffCfg) (s : Nat)
    (h : s ∈ cfg.terminalStates) : cliffReached cfg s = false := by
  cases hall : (List.range (s + 1)).all (fun j => decide (j ∉ cfg.terminalStates)) with
  | false => unfold cliffReached; rw [hall, Bool.and_false]
  | true =>
    exfalso
    rw [List.all_eq_true] at hall
    have hs := hall s (by simp)
    simp only [decide_eq_true_eq] at hs
    exact hs h

/-- The transition row of a cliff state that is not the goal is the
point mass on the start state. -/
lemma cliffT_cliff_row (cfg : CliffCfg) (c a : Nat)
    (hc : c ∈ cfg.cliff) (hcg : c ≠ cfg.goal) :
    cliffT cfg c a = (fun s1 => if s1 = cfg.start then (1 : Rat) else 0) := by
  funext s1
  have hr : cliffReached cfg c = false :=
    cliffReached_terminal cfg c (by simp [CliffCfg.terminalStates, hc])
  simp [cliffT, hr, hc, hcg]

/-!  Claim theorems. -/

/-- Claim C1 (code bug): in the constructible cliff-walking geometry
bugCfg the builder accepts the configuration, yet the transition row of
the non-terminal state 7 sums to 0, not 1: the fill loop breaks at the
first terminal index 5 and leaves the row all zero, violating the
row-sum post-condition the specification requires of every builder. -/
theorem c1_cliff_zero_row :
    cliffInit 4 3 [5, 6] 0 11 = Except.ok bugCfg ∧
    listRowSum bugCfg.ns (cliffT bugCfg 7 0) = 0 := by
  constructor
  · norm_num [cliffInit, bugCfg]
  · norm_num [listRowSum, cliffT, cliffRow, cliffReached, CliffCfg.ns,
      CliffCfg.terminalStates, bugCfg, List.range_succ]

/-- Claim C2 (code bug): the cliff-walking step contains an
exception-suppression path.  In bugCfg, sampling from the all-zero row
of state 7 fails, yet step catches the failure, merely logs it, leaves
the cursor at 7 and returns a normal triple instead of propagating the
error. -/
theorem c2_catch_and_log :
    npChoice bugCfg.ns (cliffT bugCfg 7 0) 3 =
      Except.error "probabilities do not sum to 1" ∧
    cliffStep bugCfg 7 0 3 = (Except.ok (7, -1, false), 7) := by
  constructor
  · norm_num [npChoice, listRowSum, cliffT, cliffRow, cliffReached, CliffCfg.ns,
      CliffCfg.terminalStates, bugCfg, List.range_succ]
  · norm_num [cliffStep, npChoice, listRowSum, cliffT, cliffRow, cliffReached,
      cliffR, CliffCfg.ns, CliffCfg.terminalStates, bugCfg, List.range_succ]

/-- Claim C3 counterexample: in the standard cliff geometry cfgStd the
step from state 5 under DOWN samples the cliff state 9 and returns
reward -1, not the reward -100 the claim states for a step whose
sampled next state is a cliff state; the cursor moves to the cliff
state 9, not to the start state. -/
theorem c3_counterexample :
    cliffInit 4 3 [9, 10] 8 11 = Except.ok cfgStd ∧
    9 ∈ cfgStd.cliff ∧
    cliffStep cfgStd 5 3 9 = (Except.ok (9, -1, false), 9) ∧
    ¬ ((-1 : Rat) = -100) := by
  refine ⟨by norm_num [cliffInit, cfgStd], by decide, ?_, by norm_num⟩
  norm_num [cliffStep, npChoice, listRowSum, cliffT, cliffRow, cliffReached,
    cliffR, CliffCfg.ns, CliffCfg.terminalStates, cfgStd, List.range_succ]

/-- Claim C7 counterexample: the cliff-walking and toy resets return
the bare state, so not every variant satisfies the protocol pair shape
(state, info). -/
theorem c7_counterexample :
    isProtoPair (cliffReset cfgStd).1 = false ∧ isProtoPair toyReset.1 = false := by
  exact ⟨rfl, rfl⟩

/-- Claim C9 counterexample: a cliff set overlapping the goal state is
accepted by the constructor without any error, against the claim that
construction raises for an overlapping cliff set. -/
theorem c9_counterexample :
    cliffInit 4 3 [9, 10] 8 10 = Except.ok ⟨4, 3, [9, 10], 8, 10⟩ ∧
    (10 : Nat) ∈ [9, 10] := by
  exact ⟨by norm_num [cliffInit], by decide⟩

/-- Claim C10: for every positive state count, constructing the base
class GridWorldMDP directly raises NotImplementedError from the
unimplemented _build_trans_mat before any complete instance exists, so
no base-class instance can ever be created, reset, or stepped. -/
theorem c10_base_init (n : Nat) (_h : 0 < n) :
    gridWorldMDPInit n = Except.error "_build_trans_mat" := rfl

/-- Witness for claim C10 at the concrete state count 3. -/
theorem c10_base_init_witness :
    0 < 3 ∧ gridWorldMDPInit 3 = Except.error "_build_trans_mat" :=
  ⟨by decide, c10_base_init 3 (by decide)⟩

/-- Claim C3 (amended): stepping from a non-cliff, non-goal state into
a configured cliff state yields reward -1 (not -100) and done false,
and the cursor moves onto the cliff state; the following step samples
from the row of the cliff state, which is the point mass on the start
state, so it relocates the cursor to the start state and charges the
reward -100 on that transition. -/
theorem c3_amended_cliff_entry (cfg : CliffCfg) (s a c a2 : Nat)
    (ha : a < 4) (ha2 : a2 < 4)
    (hsg : s ≠ cfg.goal) (hsc : s ∉ cfg.cliff)
    (hc : c ∈ cfg.cliff) (hcg : c ≠ cfg.goal)
    (hst : cfg.start < cfg.ns) (hstg : cfg.start ≠ cfg.goal)
    (hsum : listRowSum cfg.ns (cliffT cfg s a) = 1)
    (_hpos : cliffT cfg s a c ≠ 0) :
    cliffStep cfg s a c = (Except.ok (c, -1, false), c) ∧
    cliffT cfg c a2 = (fun s1 => if s1 = cfg.start then (1 : Rat) else 0) ∧
    cliffStep cfg c a2 cfg.start = (Except.ok (cfg.start, -100, false), cfg.start) := by
  have hrow := cliffT_cliff_row cfg c a2 hc hcg
  have hsum2 : listRowSum cfg.ns (cliffT cfg c a2) = 1 := by
    rw [hrow, listRowSum_indicator, if_pos hst]
  refine ⟨?_, hrow, ?_⟩
  · simp [cliffStep, ha, hsg, npChoice, hsum, cliffR, hsc, hcg]
  · simp [cliffStep, ha2, npChoice, hsum2, cliffR, hc, hcg, hstg]

/-- Witness for the amended claim C3 in the standard geometry cfgStd:
the step from state 5 under DOWN enters the cliff state 9 with reward
-1, and the following step relocates the cursor to the start state 8
with reward -100. -/
theorem c3_amended_cliff_entry_witness :
    cliffStep cfgStd 5 3 9 = (Except.ok (9, -1, false), 9) ∧
    cliffStep cfgStd 9 0 cfgStd.start =
      (Except.ok (cfgStd.start, -100, false), cfgStd.start) := by
  have h := c3_amended_cliff_entry cfgStd 5 3 9 0 (by decide) (by decide)
    (by decide) (by decide) (by decide) (by decide) (by decide) (by decide)
    (by norm_num [listRowSum, cliffT, cliffRow, cliffReached, CliffCfg.ns,
      CliffCfg.terminalStates, cfgStd, List.range_succ])
    (by norm_num [cliffT, cliffRow, cliffReached, CliffCfg.ns,
      CliffCfg.terminalStates, cfgStd, List.range_succ])
  exact ⟨h.1, h.2.2⟩

/-- Claim C4: in the deterministic rectangular grid every non-terminal
state s has, under each of the four actions, exactly the single
deterministic transition given by the four-branch rules of the
specification: the built tensor row is the point mass on the
destination of those rules. -/
theorem c4_grid_rules (w h s a s1 : Nat) (h1 : 1 ≤ s) (h2 : s < w * h - 1)
    (ha : a < 4) :
    gridT w (w * h - 1) s a s1 =
      if s1 = specRuleDest w (w * h - 1) s a then 1 else 0 := by
  have hdest : gridDest w (w * h - 1) s a = specRuleDest w (w * h - 1) s a := by
    interval_cases a <;> rfl
  have hs0 : ¬ s = 0 := by omega
  rw [gridT, if_neg hs0, if_pos ⟨h1, h2, ha⟩, hdest]

/-- Witness for claim C4 in the 4 x 4 grid: RIGHT from state 1 goes to
state 2, the destination of the spec rules. -/
theorem c4_grid_rules_witness :
    1 ≤ 1 ∧ 1 < 4 * 4 - 1 ∧ 2 < 4 ∧
    gridT 4 (4 * 4 - 1) 1 2 2 =
      (if 2 = specRuleDest 4 (4 * 4 - 1) 1 2 then 1 else 0) :=
  ⟨by decide, by decide, by decide,
   c4_grid_rules 4 4 1 2 2 (by decide) (by decide) (by decide)⟩

/-- Claim C5: every terminal or goal state is absorbing in the built
transition tensor of each variant: the final state 0 of the
deterministic grid, the goal state of cliff-walking, and the final
state 1 of the two-state toy model each self-loop under every
action. -/
theorem c5_absorbing :
    (∀ w h a, a < 4 → gridT w (w * h - 1) 0 a 0 = 1) ∧
    (∀ (cfg : CliffCfg) (a : Nat), a < 4 → cliffT cfg cfg.goal a cfg.goal = 1) ∧
    (∀ a, a < 2 → toyT 1 a 1 = 1) := by
  refine ⟨fun w h a _ => by simp [gridT], fun cfg a _ => ?_, fun a _ => by simp [toyT]⟩
  have hr : cliffReached cfg cfg.goal = false :=
    cliffReached_terminal cfg cfg.goal (by simp [CliffCfg.terminalStates])
  simp [cliffT, hr]

/-- Witness for claim C5 at concrete instances of the three variants. -/
theorem c5_absorbing_witness :
    gridT 2 (2 * 2 - 1) 0 1 0 = 1 ∧
    cliffT cfgStd cfgStd.goal 2 cfgStd.goal = 1 ∧
    toyT 1 1 1 = 1 :=
  ⟨c5_absorbing.1 2 2 1 (by decide), c5_absorbing.2.1 cfgStd 2 (by decide),
   c5_absorbing.2.2 1 (by decide)⟩

/-- Claim C6: in every variant, a step with an out-of-range action, or
a step taken while the engine is terminated, fails with an error raised
before any mutation, and the cursor is unchanged afterward. -/
theorem c6_step_atomic :
    (∀ w ns st a d, 4 ≤ a ∨ st = 0 →
      isErr (gStep w ns st a d).1 = true ∧ (gStep w ns st a d).2 = st) ∧
    (∀ (cfg : CliffCfg) (st a d : Nat), 4 ≤ a ∨ st = cfg.goal →
      isErr (cliffStep cfg st a d).1 = true ∧ (cliffStep cfg st a d).2 = st) ∧
    (∀ st a d, 2 ≤ a ∨ st = 1 →
      isErr (toyStep st a d).1 = true ∧ (toyStep st a d).2 = st) := by
  refine ⟨fun w ns st a d h => ?_, fun cfg st a d h => ?_, fun st a d h => ?_⟩
  · rcases h with h | h
    · have hA : ¬ a < 4 := by omega
      simp [gStep, hA, isErr]
    · by_cases hA : a < 4 <;> simp [gStep, hA, h, isErr]
  · rcases h with h | h
    · have hA : ¬ a < 4 := by omega
      simp [cliffStep, hA, isErr]
    · by_cases hA : a < 4 <;> simp [cliffStep, hA, h, isErr]
  · rcases h with h | h
    · have hA : ¬ a < 2 := by omega
      simp [toyStep, hA, isErr]
    · by_cases hA : a < 2 <;> simp [toyStep, hA, h, isErr]

/-- Witness for claim C6: an out-of-range action in the grid engine,
a step at the goal of cfgStd, and a step at the toy final state all
fail and leave the cursor in place. -/
theorem c6_step_atomic_witness :
    isErr (gStep 2 3 2 7 0).1 = true ∧ (gStep 2 3 2 7 0).2 = 2 ∧
    isErr (cliffStep cfgStd 11 1 0).1 = true ∧ (cliffStep cfgStd 11 1 0).2 = 11 ∧
    isErr (toyStep 1 0 0).1 = true ∧ (toyStep 1 0 0).2 = 1 := by
  have h1 := c6_step_atomic.1 2 3 2 7 0 (Or.inl (by decide))
  have h2 := c6_step_atomic.2.1 cfgStd 11 1 0 (Or.inr (by decide))
  have h3 := c6_step_atomic.2.2 1 0 0 (Or.inr rfl)
  exact ⟨h1.1, h1.2, h2.1, h2.2, h3.1, h3.2⟩

/-- Claim C7 (amended): the grid-style resets pick any state of the
non-terminal range 1 <= d < num_states and return the protocol pair of
the state and the info entry prob 1, while the cliff-walking and toy
resets deterministically return the bare fixed start state, without the
(state, info) pair shape. -/
theorem c7_amended (n d : Nat) (h1 : 1 ≤ d) (h2 : d < n) :
    gReset n d = Except.ok (ResetRet.pair d 1, d) ∧
    isProtoPair (ResetRet.pair d 1) = true ∧
    (∀ cfg : CliffCfg, cliffReset cfg = (ResetRet.bare cfg.start, cfg.start) ∧
      isProtoPair (cliffReset cfg).1 = false) ∧
    toyReset = (ResetRet.bare 0, 0) ∧ isProtoPair toyReset.1 = false := by
  have hn : ¬ n ≤ 1 := by omega
  exact ⟨by simp [gReset, hn], rfl, fun cfg => ⟨rfl, rfl⟩, rfl, rfl⟩

/-- Witness for the amended claim C7 with four states and draw 2. -/
theorem c7_amended_witness :
    1 ≤ 2 ∧ 2 < 4 ∧ gReset 4 2 = Except.ok (ResetRet.pair 2 1, 2) ∧
    toyReset = (ResetRet.bare 0, 0) :=
  ⟨by decide, by decide, (c7_amended 4 2 (by decide) (by decide)).1,
   (c7_amended 4 2 (by decide) (by decide)).2.2.2.1⟩

/-- Claim C8: the transition tensor of the two-state toy model equals
the fixed literal table of the specification on every in-range index,
and a step with action 1 taken from state 0 always returns the state 1,
reward 0, and done true. -/
theorem c8_toy :
    (∀ s a s1, s < 2 → a < 2 → s1 < 2 → toyT s a s1 = specToyT s a s1) ∧
    (∀ d, possibleDraw 2 (toyT 0 1) d →
      toyStep 0 1 d = (Except.ok (1, 0, true), 1)) := by
  constructor
  · intro s a s1 hs ha hs1
    interval_cases s <;> interval_cases a <;> interval_cases s1 <;>
      norm_num [toyT, specToyT]
  · rintro d ⟨hd, hp⟩
    interval_cases d
    · exact absurd (by norm_num [toyT]) hp
    · norm_num [toyStep, npChoice, listRowSum, toyT, toyR, List.range_succ]

/-- Witness for claim C8: the table entry at (0, 0, 1) and the step
with action 1 from state 0 with the only possible draw 1. -/
theorem c8_toy_witness :
    toyT 0 0 1 = specToyT 0 0 1 ∧ possibleDraw 2 (toyT 0 1) 1 ∧
    toyStep 0 1 1 = (Except.ok (1, 0, true), 1) := by
  refine ⟨c8_toy.1 0 0 1 (by decide) (by decide) (by decide), ?_, ?_⟩
  · exact ⟨by decide, by norm_num [toyT]⟩
  · exact c8_toy.2 1 ⟨by decide, by norm_num [toyT]⟩

/-- Claim C9 (amended): construction succeeds exactly when the state
count is positive and the start, goal, and cliff indices are in range
(an out-of-range index raises an IndexError from the tensor
assignment); no validation of cliff overlap with the goal or start
state is performed, so overlapping geometries are accepted. -/
theorem c9_amended :
    (∀ (w h : Nat) (cl : List Nat) (s g : Nat),
      isErr (cliffInit w h cl s g) = false ↔
        (0 < w * h ∧ g < w * h ∧ s < w * h ∧ ∀ c ∈ cl, c < w * h)) ∧
    (∀ w h : Nat, isErr (gridInit w h) = false ↔ 0 < w * h - 1) := by
  constructor
  · intro w h cl s g
    unfold cliffInit
    by_cases h1 : 0 < w * h
    · rw [if_pos h1]
      by_cases h2 : g < w * h ∧ s < w * h ∧ ∀ c ∈ cl, c < w * h
      · rw [if_pos h2]
        exact iff_of_true rfl ⟨h1, h2.1, h2.2.1, h2.2.2⟩
      · rw [if_neg h2]
        exact iff_of_false (by simp [isErr])
          (fun hc => h2 ⟨hc.2.1, hc.2.2.1, hc.2.2.2⟩)
    · rw [if_neg h1]
      exact iff_of_false (by simp [isErr]) (fun hc => h1 hc.1)
  · intro w h
    unfold gridInit
    by_cases h1 : 0 < w * h - 1
    · rw [if_pos h1]
      exact iff_of_true rfl h1
    · rw [if_neg h1]
      exact iff_of_false (by simp [isErr]) h1

/-- Witness for the amended claim C9: the overlapping geometry of the
C9 counterexample and a 2 x 2 grid both construct successfully. -/
theorem c9_amended_witness :
    isErr (cliffInit 4 3 [9, 10] 8 10) = false ∧ isErr (gridInit 2 2) = false := by
  constructor
  · exact (c9_amended.1 4 3 [9, 10] 8 10).mpr (by decide)
  · exact (c9_amended.2 2 2).mpr (by decide)
